import Mathlib

/-!
Verification of the navigation state engine of `fe-rs`
(`src/src/components/home.rs`), a terminal file browser.

The Rust structs `DirEntry`, `WorkingDirectory`, `Tab`, `State` are embedded
as Lean structures; `Vec` becomes `List` with push/pop at the end
(`xs ++ [x]` / `getLast?` + `dropLast`), `usize` becomes `Nat` with underflow
made explicit where the source can underflow.  External effects (`Path::parent`,
`Path::is_dir`, `read_dir`) are supplied by an `Env` of pure functions.
Each arm of `handle_key_events` and each state-mutating step of `draw` is
embedded as its own function, and `handle_key_events` as a whole returns the
new state together with a flag recording whether `Home::save_settings` was
invoked on that arm.
-/

/-- Rust `DirEntry { path, is_dir, size }` (home.rs lines 25-30). -/
structure DirEntry where
  path : String
  is_dir : Bool
  size : Option Nat
deriving DecidableEq, Repr, Inhabited

/-- Rust `WorkingDirectory { path, children, curr_index }` (home.rs lines 32-37). -/
structure WorkingDirectory where
  path : String
  children : List DirEntry
  curr_index : Nat
deriving DecidableEq, Repr, Inhabited

/-- Rust `Tab { cwd, history_backward, history_forward, selected }`
(home.rs lines 39-45).  The two histories are stacks pushed/popped at the
list end, exactly like `Vec::push` / `Vec::pop`. -/
structure Tab where
  cwd : WorkingDirectory
  history_backward : List WorkingDirectory
  history_forward : List WorkingDirectory
  selected : Bool
deriving DecidableEq, Repr, Inhabited

/-- Rust `State { tabs, curr_tab_index }` (home.rs lines 47-51): the
NavigationState of the spec. -/
structure State where
  tabs : List Tab
  curr_tab_index : Nat
deriving DecidableEq, Repr, Inhabited

/-- The external world used by the engine: `Path::parent`, `Path::is_dir`,
and `read_dir` (already flattened to the entries' path strings, in filesystem
order, as the loop at home.rs lines 280-290 consumes them). -/
structure Env where
  parent : String → Option String
  isDir : String → Bool
  readDir : String → Except Unit (List String)

/- ------------------------------------------------------------------
   handle_key_events (home.rs lines 172-244), one function per match arm
   ------------------------------------------------------------------ -/

/-- `KeyCode::Char('j') | KeyCode::Down` (home.rs lines 174-179):
`if cwd.curr_index != cwd.children.len() { cwd.curr_index += 1; }`. -/
def moveDown (w : WorkingDirectory) : WorkingDirectory :=
  if w.curr_index ≠ w.children.length then
    { w with curr_index := w.curr_index + 1 }
  else w

/-- Plain `KeyCode::Char('k') | KeyCode::Up` (home.rs lines 190-195):
`if 0 != cwd.curr_index { cwd.curr_index -= 1; }`. -/
def moveUp (w : WorkingDirectory) : WorkingDirectory :=
  if 0 ≠ w.curr_index then
    { w with curr_index := w.curr_index - 1 }
  else w

/-- Alt+Up (home.rs lines 181-189): if the cwd path has a parent, push the
current cwd onto `history_backward`, set `cwd.path` to the parent and clear
`cwd.children`; `curr_index` is left as it is. -/
def parentDirectoryTab (env : Env) (t : Tab) : Tab :=
  match env.parent t.cwd.path with
  | some newPath =>
      { t with
        history_backward := t.history_backward ++ [t.cwd],
        cwd := { path := newPath, children := [], curr_index := t.cwd.curr_index } }
  | none => t

/-- Alt+Left (home.rs lines 201-206): `history_backward.pop()`; on `Some`,
push the old cwd onto `history_forward` and install the popped entry. -/
def navigateBack (t : Tab) : Tab :=
  match t.history_backward.getLast? with
  | some historyItem =>
      { cwd := historyItem,
        history_backward := t.history_backward.dropLast,
        history_forward := t.history_forward ++ [t.cwd],
        selected := t.selected }
  | none => t

/-- Alt+Right (home.rs lines 213-218): symmetric to `navigateBack`. -/
def navigateForward (t : Tab) : Tab :=
  match t.history_forward.getLast? with
  | some historyItem =>
      { cwd := historyItem,
        history_backward := t.history_backward ++ [t.cwd],
        history_forward := t.history_forward.dropLast,
        selected := t.selected }
  | none => t

/-- `KeyCode::Char('x')` (home.rs lines 234-239):
`tabs.remove(curr_tab_index)` then
`if curr_tab_index >= tabs.len() && curr_tab_index != 0 { curr_tab_index -= 1; }`. -/
def tabClose (s : State) : State :=
  let tabs' := s.tabs.eraseIdx s.curr_tab_index
  if s.curr_tab_index ≥ tabs'.length ∧ s.curr_tab_index ≠ 0 then
    { tabs := tabs', curr_tab_index := s.curr_tab_index - 1 }
  else
    { tabs := tabs', curr_tab_index := s.curr_tab_index }

/-- The tab at `curr_tab_index`; Rust `self.state.tabs[self.state.curr_tab_index]`
(panics out of range, so theorems carry `curr_tab_index < tabs.length`). -/
def activeTab (s : State) : Tab :=
  s.tabs.getD s.curr_tab_index default

/-- Replace the active tab by `f` of it, the embedding of in-place mutation of
`self.state.tabs[self.state.curr_tab_index]`. -/
def modifyActiveTab (f : Tab → Tab) (s : State) : State :=
  { s with tabs := s.tabs.set s.curr_tab_index (f (activeTab s)) }

/-- The closed set of logical actions of the key handler (spec section 6);
only the state-mutating ones appear, `Tick`/`Help`/launcher keys are no-ops
on `State`. -/
inductive NavAction where
  | MoveDown | MoveUp | Activate
  | NavigateBack | NavigateForward | ParentDirectory
  | TabPrev | TabNext | TabNew | TabClose
deriving DecidableEq, Repr

/-- `handle_key_events` (home.rs lines 172-244): the new state, paired with
whether that arm invoked `Home::save_settings`.  Saves appear exactly where
the source calls them: inside the Alt+Up parent branch (line 188),
unconditionally in the Left/`h` and Right/`l` arms (lines 210, 222), and in
the `t` arm (line 232).  The `j`/`k`/Enter/`x` arms never save. -/
def handleKey (env : Env) (a : NavAction) (s : State) : State × Bool :=
  match a with
  | .MoveDown => (modifyActiveTab (fun t => { t with cwd := moveDown t.cwd }) s, false)
  | .MoveUp => (modifyActiveTab (fun t => { t with cwd := moveUp t.cwd }) s, false)
  | .Activate => (modifyActiveTab (fun t => { t with selected := true }) s, false)
  | .ParentDirectory =>
      match env.parent (activeTab s).cwd.path with
      | some _ => (modifyActiveTab (parentDirectoryTab env) s, true)
      | none => (s, false)
  | .NavigateBack => (modifyActiveTab navigateBack s, true)
  | .NavigateForward => (modifyActiveTab navigateForward s, true)
  | .TabPrev =>
      (if s.curr_tab_index ≠ 0 then { s with curr_tab_index := s.curr_tab_index - 1 } else s,
       true)
  | .TabNext =>
      (if s.curr_tab_index ≠ s.tabs.length - 1 then
        { s with curr_tab_index := s.curr_tab_index + 1 }
       else s,
       true)
  | .TabNew => ({ s with tabs := s.tabs ++ [activeTab s] }, true)
  | .TabClose => (tabClose s, false)

/- ------------------------------------------------------------------
   draw (home.rs lines 255-312): the state-mutating steps
   ------------------------------------------------------------------ -/

/-- Activation resolution (home.rs lines 258-276): when `selected`, clear the
flag, read the child at `curr_index` (Rust indexing; in-range under the
theorems' hypotheses), and if it is a directory push the old cwd onto
`history_backward` and install a fresh cwd at the child path with empty
children and the inherited `curr_index`; a file delegates to the launcher
and leaves the rest of the tab unchanged. -/
def resolveActivation (env : Env) (t : Tab) : Tab :=
  if t.selected then
    let selectedItem := (t.cwd.children.getD t.cwd.curr_index default).path
    if env.isDir selectedItem then
      { cwd := { path := selectedItem, children := [], curr_index := t.cwd.curr_index },
        history_backward := t.history_backward ++ [t.cwd],
        history_forward := t.history_forward,
        selected := false }
    else
      { t with selected := false }
  else t

/-- Lazy listing (home.rs lines 278-292): when `children` is empty, `read_dir`
the cwd path; on `Ok` push one `DirEntry` per non-empty child path with its
`is_dir` bit and default (`None`) size; on `Err` the `if let Ok` falls
through and nothing at all happens. -/
def populateChildren (env : Env) (w : WorkingDirectory) : WorkingDirectory :=
  if w.children.isEmpty then
    match env.readDir w.path with
    | .ok paths =>
        { w with
          children :=
            (paths.filter (fun p => !p.isEmpty)).map
              (fun p => { path := p, is_dir := env.isDir p, size := none }) }
    | .error _ => w
  else w

/-- Rust `usize` subtraction as the source's debug build executes it:
defined only when it does not underflow. -/
def usizeSub (a b : Nat) : Option Nat :=
  if b ≤ a then some (a - b) else none

/-- Cursor clamp (home.rs lines 309-312):
`curr_index = min(curr_index, children.len() - 1)`, run unconditionally
after the listing step; `children.len() - 1` underflows when the children
list is (still) empty, so the result is `none` exactly there. -/
def clampCursor (w : WorkingDirectory) : Option WorkingDirectory :=
  match usizeSub w.children.length 1 with
  | some lastIdx => some { w with curr_index := min w.curr_index lastIdx }
  | none => none

/-- The listing-then-clamp fragment of `draw` for the active cwd. -/
def renderCwd (env : Env) (w : WorkingDirectory) : Option WorkingDirectory :=
  clampCursor (populateChildren env w)

/- ------------------------------------------------------------------
   SettingsStore (home.rs lines 72-97): serde_json round trip.
   `serde_json::to_string` / `from_str` are modelled at the JSON value
   level (serde_json is value-faithful for these derive-only structs);
   the encoders mirror the `Serialize` derives field by field in
   declaration order, the decoders the `Deserialize` derives, reading
   each field by name from the object.
   ------------------------------------------------------------------ -/

/-- JSON values, as far as the persisted settings document needs them. -/
inductive Json where
  | null : Json
  | bool : Bool → Json
  | num : Nat → Json
  | str : String → Json
  | arr : List Json → Json
  | obj : List (String × Json) → Json

/-- Field access on a JSON object, by name. -/
def Json.getField (j : Json) (key : String) : Option Json :=
  match j with
  | .obj fields => fields.lookup key
  | _ => none

/-- Decode every element of a JSON array, failing if any element fails. -/
def decodeEach (dec : Json → Option α) : List Json → Option (List α)
  | [] => some []
  | j :: js =>
      match dec j, decodeEach dec js with
      | some a, some as => some (a :: as)
      | _, _ => none

/-- `Serialize` for `DirEntry`: fields `path`, `is_dir`, `size`
(`Option<usize>` as null / number). -/
def DirEntry.toJson (e : DirEntry) : Json :=
  .obj [("path", .str e.path),
        ("is_dir", .bool e.is_dir),
        ("size", match e.size with | some n => .num n | none => .null)]

/-- `Deserialize` for `DirEntry`. -/
def DirEntry.fromJson (j : Json) : Option DirEntry :=
  match j.getField "path", j.getField "is_dir", j.getField "size" with
  | some (.str p), some (.bool d), some .null => some ⟨p, d, none⟩
  | some (.str p), some (.bool d), some (.num n) => some ⟨p, d, some n⟩
  | _, _, _ => none

/-- `Serialize` for `WorkingDirectory`: fields `path`, `children`, `curr_index`. -/
def WorkingDirectory.toJson (w : WorkingDirectory) : Json :=
  .obj [("path", .str w.path),
        ("children", .arr (w.children.map DirEntry.toJson)),
        ("curr_index", .num w.curr_index)]

/-- `Deserialize` for `WorkingDirectory`. -/
def WorkingDirectory.fromJson (j : Json) : Option WorkingDirectory :=
  match j.getField "path", j.getField "children", j.getField "curr_index" with
  | some (.str p), some (.arr cs), some (.num i) =>
      match decodeEach DirEntry.fromJson cs with
      | some children => some ⟨p, children, i⟩
      | none => none
  | _, _, _ => none

/-- `Serialize` for `Tab`: fields `cwd`, `history_backward`,
`history_forward`, `selected`. -/
def Tab.toJson (t : Tab) : Json :=
  .obj [("cwd", t.cwd.toJson),
        ("history_backward", .arr (t.history_backward.map WorkingDirectory.toJson)),
        ("history_forward", .arr (t.history_forward.map WorkingDirectory.toJson)),
        ("selected", .bool t.selected)]

/-- `Deserialize` for `Tab`. -/
def Tab.fromJson (j : Json) : Option Tab :=
  match j.getField "cwd", j.getField "history_backward",
        j.getField "history_forward", j.getField "selected" with
  | some jc, some (.arr jb), some (.arr jf), some (.bool sel) =>
      match WorkingDirectory.fromJson jc,
            decodeEach WorkingDirectory.fromJson jb,
            decodeEach WorkingDirectory.fromJson jf with
      | some cwd, some hb, some hf => some ⟨cwd, hb, hf, sel⟩
      | _, _, _ => none
  | _, _, _, _ => none

/-- `Serialize` for `State`: fields `tabs`, `curr_tab_index`. -/
def State.toJson (s : State) : Json :=
  .obj [("tabs", .arr (s.tabs.map Tab.toJson)),
        ("curr_tab_index", .num s.curr_tab_index)]

/-- `Deserialize` for `State`. -/
def State.fromJson (j : Json) : Option State :=
  match j.getField "tabs", j.getField "curr_tab_index" with
  | some (.arr jt), some (.num i) =>
      match decodeEach Tab.fromJson jt with
      | some tabs => some ⟨tabs, i⟩
      | none => none
  | _, _ => none

/-- The default state `load_settings` falls back to (home.rs lines 82-88):
a single tab at the root path with empty children, cursor 0, empty
histories, index 0. -/
def defaultState : State :=
  { tabs := [{ cwd := { path := "\\", children := [], curr_index := 0 },
               history_backward := [], history_forward := [], selected := false }],
    curr_tab_index := 0 }

/-- `save_settings` (home.rs lines 91-97): serialize the whole state and
overwrite the settings file; the file content is the JSON document. -/
def save_settings (s : State) : Json :=
  s.toJson

/-- `load_settings` (home.rs lines 72-89): `none` is a missing or unreadable
settings file; any parse failure also falls back to the default state. -/
def load_settings (file : Option Json) : State :=
  match file with
  | some j =>
      match State.fromJson j with
      | some s => s
      | none => defaultState
  | none => defaultState

/- ------------------------------------------------------------------
   Cursor-move sequences, and concrete sample inputs
   ------------------------------------------------------------------ -/

/-- A cursor move: the `j`/Down or plain `k`/Up key. -/
inductive Move where
  | down
  | up
deriving DecidableEq, Repr

/-- One cursor move applied to the active cwd. -/
def applyMove : Move → WorkingDirectory → WorkingDirectory
  | .down, w => moveDown w
  | .up, w => moveUp w

/-- A finite sequence of cursor moves, applied left to right. -/
def applyMoves : List Move → WorkingDirectory → WorkingDirectory
  | [], w => w
  | m :: ms, w => applyMoves ms (applyMove m w)

/-- A directory with exactly one listed child and the cursor on it. -/
def oneChildDir : WorkingDirectory :=
  { path := "\\", children := [{ path := "\\a", is_dir := true, size := none }],
    curr_index := 0 }

/-- A tab sitting at `oneChildDir` with empty histories. -/
def idleTab : Tab :=
  { cwd := oneChildDir, history_backward := [], history_forward := [],
    selected := false }

/-- A tab one descent deep: `\a` is current, `\` is on the backward stack. -/
def descendedTab : Tab :=
  { cwd := { path := "\\a", children := [], curr_index := 0 },
    history_backward := [{ path := "\\", children := [], curr_index := 1 }],
    history_forward := [], selected := false }

/-- A tab three entries deep with the cursor on the third entry, whose path
has a parent. -/
def deepTab : Tab :=
  { cwd := { path := "\\a\\b",
             children := [{ path := "\\a\\b\\x", is_dir := false, size := none },
                          { path := "\\a\\b\\y", is_dir := false, size := none },
                          { path := "\\a\\b\\z", is_dir := true, size := none }],
             curr_index := 2 },
    history_backward := [], history_forward := [], selected := false }

/-- `deepTab` with Enter pressed (activation pending) and the cursor on the
directory entry `\a\b\z`. -/
def activatingTab : Tab :=
  { deepTab with selected := true }

/-- An environment whose filesystem knows `\a` as parent of `\a\b`, treats
every path as a directory, and fails every enumeration. -/
def envTree : Env :=
  { parent := fun p => if p = "\\a\\b" then some "\\a" else none,
    isDir := fun _ => true,
    readDir := fun _ => .error () }

/-- An environment whose every enumeration fails (missing path or
permission denied). -/
def envFail : Env :=
  { parent := fun _ => none,
    isDir := fun _ => false,
    readDir := fun _ => .error () }

/-- An environment whose every enumeration succeeds with zero entries
(a genuinely empty directory). -/
def envEmptyDir : Env :=
  { parent := fun _ => none,
    isDir := fun _ => false,
    readDir := fun _ => .ok [] }

/-- A not-yet-listed working directory at a path that does not exist. -/
def wUnlisted : WorkingDirectory :=
  { path := "\\gone", children := [], curr_index := 0 }

/-- A one-tab state over `oneChildDir`: the smallest reachable state. -/
def oneTabState : State :=
  { tabs := [idleTab], curr_tab_index := 0 }

/- ------------------------------------------------------------------
   Round-trip lemmas for the settings document
   ------------------------------------------------------------------ -/

theorem decodeEach_map {α : Type} (dec : Json → Option α) (enc : α → Json)
    (h : ∀ x, dec (enc x) = some x) :
    ∀ xs : List α, decodeEach dec (xs.map enc) = some xs := by
  intro xs
  induction xs with
  | nil => rfl
  | cons x xs ih => simp [decodeEach, h x, ih]

theorem dirEntry_decode_encode (e : DirEntry) :
    DirEntry.fromJson e.toJson = some e := by
  cases e with
  | mk p d sz => cases sz <;> rfl

theorem workingDirectory_decode_encode (w : WorkingDirectory) :
    WorkingDirectory.fromJson w.toJson = some w := by
  cases w with
  | mk p cs i =>
    simp [WorkingDirectory.toJson, WorkingDirectory.fromJson, Json.getField,
      List.lookup, decodeEach_map DirEntry.fromJson DirEntry.toJson dirEntry_decode_encode]

theorem tab_decode_encode (t : Tab) :
    Tab.fromJson t.toJson = some t := by
  cases t with
  | mk cwd hb hf sel =>
    simp [Tab.toJson, Tab.fromJson, Json.getField, List.lookup,
      workingDirectory_decode_encode,
      decodeEach_map WorkingDirectory.fromJson WorkingDirectory.toJson
        workingDirectory_decode_encode]

theorem state_decode_encode (s : State) :
    State.fromJson s.toJson = some s := by
  cases s with
  | mk tabs i =>
    simp [State.toJson, State.fromJson, Json.getField, List.lookup,
      decodeEach_map Tab.fromJson Tab.toJson tab_decode_encode]

/- ------------------------------------------------------------------
   Helper lemmas for cursor moves
   ------------------------------------------------------------------ -/

theorem applyMove_children (m : Move) (w : WorkingDirectory) :
    (applyMove m w).children = w.children := by
  cases m <;> simp only [applyMove, moveDown, moveUp] <;> split <;> rfl

theorem applyMove_bound (m : Move) (w : WorkingDirectory)
    (h : w.curr_index ≤ w.children.length) :
    (applyMove m w).curr_index ≤ w.children.length := by
  cases m with
  | down =>
      simp only [applyMove, moveDown]
      split
      · next hne =>
          show w.curr_index + 1 ≤ w.children.length
          omega
      · exact h
  | up =>
      simp only [applyMove, moveUp]
      split
      · show w.curr_index - 1 ≤ w.children.length
        omega
      · exact h

/- ------------------------------------------------------------------
   Claim theorems
   ------------------------------------------------------------------ -/

/-- C1: the spec requires that TabClose never leaves `tabs` empty — closing
the last tab must be a no-op or recreate a default tab.  The code evaluated
at the failing input: on any state with exactly one tab, the `x` arm removes
it and leaves `tabs` empty (with `curr_tab_index` still 0), violating the
spec's hard invariant; every later `tabs[curr_tab_index]` access panics. -/
theorem C1_close_last_tab_empties_tabs (t : Tab) :
    (tabClose { tabs := [t], curr_tab_index := 0 }).tabs = [] ∧
      (tabClose { tabs := [t], curr_tab_index := 0 }).curr_tab_index = 0 := by
  constructor <;> rfl

/-- C2: the claim that under every sequence of MoveDown/MoveUp the cursor
stays strictly below `len(children)` is false: from the last valid index the
`j` arm's guard `curr_index != children.len()` still fires, so one MoveDown
on a one-entry directory with the cursor at 0 drives the cursor to 1, which
equals the length. -/
theorem C2_cursor_can_reach_length :
    oneChildDir.children ≠ [] ∧
      oneChildDir.curr_index < oneChildDir.children.length ∧
      ¬ (applyMoves [Move.down] oneChildDir).curr_index
          < oneChildDir.children.length := by
  decide

/-- C2 (amended): for every Tab whose cursor starts at most `len(children)`,
any finite sequence of MoveDown and MoveUp leaves the children unchanged and
keeps the cursor within `[0, len(children)]`: it can transiently sit one past
the last valid index (restored only by the render-time clamp) but never
exceeds the length, and MoveUp's guard keeps it from going below 0. -/
theorem C2_cursor_bounded_by_length (ms : List Move) (w : WorkingDirectory)
    (h : w.curr_index ≤ w.children.length) :
    (applyMoves ms w).children = w.children ∧
      (applyMoves ms w).curr_index ≤ w.children.length := by
  induction ms generalizing w with
  | nil => exact ⟨rfl, h⟩
  | cons m ms ih =>
      have hc := applyMove_children m w
      have hb := applyMove_bound m w h
      have hrec := ih (applyMove m w) (by rw [hc]; exact hb)
      refine ⟨?_, ?_⟩
      · show (applyMoves ms (applyMove m w)).children = w.children
        rw [hrec.1, hc]
      · show (applyMoves ms (applyMove m w)).curr_index ≤ w.children.length
        have := hrec.2
        rw [hc] at this
        exact this

/-- Witness for C2's amended theorem at a concrete input. -/
theorem C2_cursor_bounded_by_length_witness :
    oneChildDir.curr_index ≤ oneChildDir.children.length ∧
      ((applyMoves [Move.down, Move.up] oneChildDir).children
          = oneChildDir.children ∧
        (applyMoves [Move.down, Move.up] oneChildDir).curr_index
          ≤ oneChildDir.children.length) :=
  ⟨by decide, C2_cursor_bounded_by_length [Move.down, Move.up] oneChildDir (by decide)⟩

/-- C3: on any tab with non-empty `history_backward`, NavigateBack followed
immediately by NavigateForward restores the tab exactly: the cwd (path,
cached children and cursor) and both history stacks are as before the pair. -/
theorem C3_back_then_forward_restores (t : Tab) (h : t.history_backward ≠ []) :
    navigateForward (navigateBack t) = t := by
  obtain ⟨l, b, hl⟩ := t.history_backward.eq_nil_or_concat'.resolve_left h
  cases t with
  | mk cwd hb hf sel =>
      dsimp only at hl
      subst hl
      simp [navigateBack, navigateForward, List.getLast?_concat,
        List.dropLast_concat]

/-- Witness for C3 at a concrete input. -/
theorem C3_back_then_forward_restores_witness :
    descendedTab.history_backward ≠ [] ∧
      navigateForward (navigateBack descendedTab) = descendedTab :=
  ⟨by decide, C3_back_then_forward_restores descendedTab (by decide)⟩

/-- C4: the settings round trip: loading the document produced by saving any
NavigationState yields a structurally equal state — same tabs (cwd,
histories, cursors, selected flags) and the same active tab index. -/
theorem C4_settings_round_trip (s : State) :
    load_settings (some (save_settings s)) = s := by
  simp [load_settings, save_settings, state_decode_encode]

/-- C5: the claim that ParentDirectory sets the cursor to 0 is false: the
Alt+Up arm only rewrites `cwd.path` and clears `cwd.children`, so on a tab
whose cursor is 2 and whose path has a parent, the cursor is still 2
afterwards. -/
theorem C5_parent_does_not_reset_cursor :
    envTree.parent deepTab.cwd.path = some "\\a" ∧
      ¬ (parentDirectoryTab envTree deepTab).cwd.curr_index = 0 := by
  decide

/-- C5 (amended): on any tab whose cwd path has a parent, ParentDirectory
pushes the current cwd onto `history_backward` and replaces the cwd by the
parent path with empty children (forcing a relist); the cursor is left
unchanged, inherited from the outgoing directory, not reset to 0. -/
theorem C5_parent_pushes_and_keeps_cursor (env : Env) (t : Tab) (p : String)
    (h : env.parent t.cwd.path = some p) :
    parentDirectoryTab env t =
      { t with
        history_backward := t.history_backward ++ [t.cwd],
        cwd := { path := p, children := [], curr_index := t.cwd.curr_index } } := by
  simp [parentDirectoryTab, h]

/-- Witness for C5's amended theorem at a concrete input. -/
theorem C5_parent_pushes_and_keeps_cursor_witness :
    envTree.parent deepTab.cwd.path = some "\\a" ∧
      parentDirectoryTab envTree deepTab =
        { deepTab with
          history_backward := deepTab.history_backward ++ [deepTab.cwd],
          cwd := { path := "\\a", children := [],
                   curr_index := deepTab.cwd.curr_index } } :=
  ⟨by decide, C5_parent_pushes_and_keeps_cursor envTree deepTab "\\a" (by decide)⟩

/-- C6: when activation resolves with the cursor on an in-range directory
entry, the old cwd is pushed onto `history_backward`, the cwd becomes a
fresh WorkingDirectory at the child's path with empty children and the
cursor inherited from the outgoing directory, `history_forward` is
untouched, and the pending `selected` flag is cleared. -/
theorem C6_activation_descends_into_directory (env : Env) (t : Tab)
    (hsel : t.selected = true)
    (hlt : t.cwd.curr_index < t.cwd.children.length)
    (hdir : env.isDir (t.cwd.children.getD t.cwd.curr_index default).path = true) :
    resolveActivation env t =
      { cwd := { path := (t.cwd.children.getD t.cwd.curr_index default).path,
                 children := [],
                 curr_index := t.cwd.curr_index },
        history_backward := t.history_backward ++ [t.cwd],
        history_forward := t.history_forward,
        selected := false } := by
  simp only [resolveActivation, hsel, if_true, hdir]

/-- Witness for C6 at a concrete input. -/
theorem C6_activation_descends_into_directory_witness :
    activatingTab.selected = true ∧
      activatingTab.cwd.curr_index < activatingTab.cwd.children.length ∧
      envTree.isDir
        ((activatingTab.cwd.children.getD activatingTab.cwd.curr_index
            default).path) = true ∧
      resolveActivation envTree activatingTab =
        { cwd := { path := (activatingTab.cwd.children.getD
                     activatingTab.cwd.curr_index default).path,
                   children := [],
                   curr_index := activatingTab.cwd.curr_index },
          history_backward := activatingTab.history_backward ++ [activatingTab.cwd],
          history_forward := activatingTab.history_forward,
          selected := false } :=
  ⟨by decide, by decide, by decide,
    C6_activation_descends_into_directory envTree activatingTab (by decide)
      (by decide) (by decide)⟩

/-- C7: the claim that a failed enumeration surfaces a `DirectoryError` is
false on the code: the `if let Ok(res)` at home.rs line 279 silently falls
through on `Err`, so listing a non-existent path leaves the children empty
and the state is identical to that of a genuinely empty directory — no
error value is produced anywhere. -/
theorem C7_failed_listing_not_distinguished :
    (populateChildren envFail wUnlisted).children = [] ∧
      populateChildren envFail wUnlisted = wUnlisted ∧
      populateChildren envFail wUnlisted = populateChildren envEmptyDir wUnlisted := by
  decide

/-- C7 (amended): on any enumeration failure the draw-time listing step is a
silent no-op: the working directory is returned unchanged, its children
still empty, indistinguishable from an empty directory; no DirectoryError
or any other error value exists in the code. -/
theorem C7_failure_is_silent_noop (env : Env) (w : WorkingDirectory) (e : Unit)
    (h : env.readDir w.path = .error e) :
    populateChildren env w = w := by
  unfold populateChildren
  split
  · rw [h]
  · rfl

/-- Witness for C7's amended theorem at a concrete input. -/
theorem C7_failure_is_silent_noop_witness :
    envFail.readDir wUnlisted.path = .error () ∧
      populateChildren envFail wUnlisted = wUnlisted :=
  ⟨rfl, C7_failure_is_silent_noop envFail wUnlisted () rfl⟩

/-- C8: the claim that every mutating action saves the settings before the
next action is false: the `j`/Down arm (MoveDown) moves the cursor — a real
mutation — yet never calls `Home::save_settings` (and neither do the
MoveUp and TabClose arms). -/
theorem C8_movedown_mutates_without_saving :
    (handleKey envTree .MoveDown oneTabState).2 = false ∧
      (handleKey envTree .MoveDown oneTabState).1 ≠ oneTabState := by
  decide

/-- C8 (amended): `handle_key_events` saves the settings after NavigateBack,
NavigateForward, TabPrev, TabNext and TabNew (even when nothing changed),
and after ParentDirectory exactly when the cwd path has a parent; MoveDown,
MoveUp, Activate and TabClose mutate the state without any save (an
activation is saved only later, when `draw` resolves it). -/
theorem C8_save_called_only_on_some_arms (env : Env) (s : State) :
    (handleKey env .NavigateBack s).2 = true ∧
      (handleKey env .NavigateForward s).2 = true ∧
      (handleKey env .TabPrev s).2 = true ∧
      (handleKey env .TabNext s).2 = true ∧
      (handleKey env .TabNew s).2 = true ∧
      (handleKey env .ParentDirectory s).2
        = (env.parent (activeTab s).cwd.path).isSome ∧
      (handleKey env .MoveDown s).2 = false ∧
      (handleKey env .MoveUp s).2 = false ∧
      (handleKey env .Activate s).2 = false ∧
      (handleKey env .TabClose s).2 = false := by
  refine ⟨rfl, rfl, rfl, rfl, rfl, ?_, rfl, rfl, rfl, rfl⟩
  cases h : env.parent (activeTab s).cwd.path <;> simp [handleKey, h]

/-- C9: the spec requires cursor clamping never to run against an empty
children list (the `len - 1` bound would underflow), but `draw` runs
`curr_index = min(curr_index, children.len() - 1)` unconditionally after the
listing step; when the listing failed, and equally when the directory is
truly empty, `children.len()` is 0 and the `usize` subtraction underflows
(a panic under debug assertions). -/
theorem C9_clamp_underflows_on_empty_children :
    renderCwd envFail wUnlisted = none ∧
      renderCwd envEmptyDir wUnlisted = none := by
  decide

/-- C10: NavigateBack on a tab with empty `history_backward` leaves the tab
entirely unchanged, and symmetrically NavigateForward on a tab with empty
`history_forward` leaves it unchanged: `Vec::pop` yields `None` and the
whole arm is skipped. -/
theorem C10_empty_history_is_noop (t u : Tab)
    (hb : t.history_backward = []) (hf : u.history_forward = []) :
    navigateBack t = t ∧ navigateForward u = u := by
  constructor
  · simp [navigateBack, hb]
  · simp [navigateForward, hf]

/-- Witness for C10 at a concrete input. -/
theorem C10_empty_history_is_noop_witness :
    idleTab.history_backward = [] ∧ idleTab.history_forward = [] ∧
      (navigateBack idleTab = idleTab ∧ navigateForward idleTab = idleTab) :=
  ⟨rfl, rfl, C10_empty_history_is_noop idleTab idleTab rfl rfl⟩
